import Mathlib

/-!
Shallow embedding of the seven-stage customer-service audio test pipeline:
the result-record data model (`models/test_models.py`), the orchestrator
(`services/test_orchestrator.py`) with its external collaborators abstracted
as an environment of oracles, and the registry cleanup route
(`api/routes.py`).  Python floats are modelled as rationals, Python dicts as
association lists, and Python exceptions as an explicit error type threaded
through each stage.
-/

namespace CSTest

/-- Run status enumeration (`TestStatus` in `models/test_models.py`). -/
inductive TestStatus where
  | pending
  | running
  | completed
  | failed
deriving DecidableEq, Repr

/-- Speaker role enumeration (`SpeakerRole`). -/
inductive SpeakerRole where
  | customer
  | agent
deriving DecidableEq, Repr

/-- One parsed dialogue line (`DialogueLine`); `pause_after` defaults to 0.3. -/
structure DialogueLine where
  speaker : SpeakerRole
  text : String
  pause_after : ℚ
deriving DecidableEq, Repr

/-- Audio artifact reference (`AudioFile`). -/
structure AudioFile where
  file_path : String
  duration : ℚ
  file_size : ℕ
  format : String
deriving DecidableEq, Repr

/-- Values stored in the free-form metadata dictionaries (`Dict[str, Any]`). -/
inductive PyVal where
  | str (s : String)
  | int (n : ℤ)
  | num (q : ℚ)
  | bool (b : Bool)
  | pynone
  | list (xs : List PyVal)
  | dict (m : List (String × PyVal))

/-- Python `d[k] = v`: overwrite the value when the key exists, else append. -/
def setKey (d : List (String × PyVal)) (k : String) (v : PyVal) :
    List (String × PyVal) :=
  if d.any (fun p => p.1 == k) then
    d.map (fun p => if p.1 == k then (k, v) else p)
  else d ++ [(k, v)]

/-- Python `d.update(m)`: fold `setKey` over the new entries. -/
def dictUpdate (d m : List (String × PyVal)) : List (String × PyVal) :=
  m.foldl (fun acc kv => setKey acc kv.1 kv.2) d

/-- Python `k in d`. -/
def hasKey (d : List (String × PyVal)) (k : String) : Bool :=
  d.any (fun p => p.1 == k)

/-- Python `d.get(k, dflt)` specialised to string values. -/
def dictGetStr (d : List (String × PyVal)) (k : String) (dflt : String) :
    String :=
  match d.find? (fun p => p.1 == k) with
  | some (_, PyVal.str s) => s
  | _ => dflt

/-- Python `d.get(k, dflt)` specialised to numeric values. -/
def dictGetRat (d : List (String × PyVal)) (k : String) (dflt : ℚ) : ℚ :=
  match d.find? (fun p => p.1 == k) with
  | some (_, PyVal.num q) => q
  | some (_, PyVal.int n) => (n : ℚ)
  | _ => dflt

/-- The fixed step progress table `STEP_PROGRESS_MAPPING`, with the
`dict.get(key, 0)` default folded into the wildcard case. -/
def STEP_PROGRESS_MAPPING : String → ℕ
  | "idle" => 0
  | "preprocessing" => 14
  | "startup" => 28
  | "tts_conversion" => 43
  | "recording" => 57
  | "storage" => 71
  | "llm_analysis" => 86
  | "completion" => 100
  | _ => 0

/-- The seven pipeline stage names, in execution order (the non-idle values
of `TestStep`). -/
def stageNames : List String :=
  ["preprocessing", "startup", "tts_conversion", "recording", "storage",
   "llm_analysis", "completion"]

/-- The whitespace characters Python's `str.strip()` removes. -/
def isPySpace (c : Char) : Bool :=
  c == ' ' || c == '\t' || c == '\n' || c == '\r' || c == '\x0b' || c == '\x0c'

/-- Python `s.strip()`: drop whitespace from both ends. -/
def pyStrip (s : String) : String :=
  ⟨((s.data.dropWhile isPySpace).reverse.dropWhile isPySpace).reverse⟩

/-- Python `s.lower()` (ASCII case folding, as in the CPython fast path the
speaker labels exercise). -/
def pyLower (s : String) : String :=
  ⟨s.data.map Char.toLower⟩

/-- Python `sep in s` for a single-character separator. -/
def pyContains (s : String) (c : Char) : Bool :=
  s.data.contains c

/-- Splits a character list at its first occurrence of the separator,
keeping everything after it (including later separators) as the tail. -/
def splitFirst (sep : Char) : List Char → List Char × List Char
  | [] => ([], [])
  | c :: t =>
    if c = sep then ([], t)
    else
      let p := splitFirst sep t
      (c :: p.1, p.2)

/-- Python `s.split(sep)`: all parts, empty parts included. -/
def splitAll (sep : Char) : List Char → List (List Char)
  | [] => [[]]
  | c :: t =>
    match splitAll sep t with
    | [] => [[]]
    | h :: r => if c = sep then [] :: h :: r else (c :: h) :: r

/-- Python `s.split("\n")` on a string. -/
def pySplitLines (s : String) : List String :=
  (splitAll '\n' s.data).map (fun l => ⟨l⟩)

/-- Splits a line at its first colon (`line.split(":", 1)` under the guard
that the line contains a colon). -/
def splitOnce (line : String) : String × String :=
  let p := splitFirst ':' line.data
  (⟨p.1⟩, ⟨p.2⟩)

/-- One iteration of the loop body of `TestScript.parse_content`: recognize a
speaker-labelled line, or skip it. -/
def parseLine (line : String) : Option DialogueLine :=
  if pyContains line ':' then
    let p := splitOnce line
    let role_str := pyLower (pyStrip p.1)
    if role_str = "客戶" ∨ role_str = "customer" then
      some ⟨SpeakerRole.customer, pyStrip p.2, 3 / 10⟩
    else if role_str = "客服" ∨ role_str = "agent" then
      some ⟨SpeakerRole.agent, pyStrip p.2, 3 / 10⟩
    else none
  else none

/-- `TestScript.parse_content`: strip the content, split into lines, keep the
recognized dialogue lines in order. -/
def parse_content (content : String) : List DialogueLine :=
  (pySplitLines (pyStrip content)).filterMap parseLine

/-- The mutable per-run result record (`TestResult`), with every field the
orchestrator touches. -/
structure TestResult where
  test_id : String
  timestamp : ℤ
  status : TestStatus
  original_script : String
  current_step : String
  step_progress : ℚ
  overall_progress : ℚ
  completed_steps : List String
  parsed_dialogue_count : ℕ
  script_validation_info : List (String × PyVal)
  apis_verified : List (String × Bool)
  startup_info : List (String × PyVal)
  tts_audio : Option AudioFile
  tts_generation_info : List (String × PyVal)
  recorded_audio : Option AudioFile
  recording_info : List (String × PyVal)
  storage_file_id : Option String
  storage_metadata : List (String × PyVal)
  stt_stage : String
  transcribed_text : String
  stt_confidence : ℚ
  stt_info : List (String × PyVal)
  llm_stage : String
  llm_analysis : List (String × PyVal)
  accuracy_score : ℚ
  final_report : List (String × PyVal)
  cleanup_info : List (String × PyVal)
  error_message : Option String
  mock_response_audio : Option AudioFile

/-- A freshly created record: the dataclass defaults of `TestResult`. -/
def mkTestResult (test_id : String) (timestamp : ℤ) (original_script : String) :
    TestResult where
  test_id := test_id
  timestamp := timestamp
  status := TestStatus.pending
  original_script := original_script
  current_step := "idle"
  step_progress := 0
  overall_progress := 0
  completed_steps := []
  parsed_dialogue_count := 0
  script_validation_info := []
  apis_verified := []
  startup_info := []
  tts_audio := none
  tts_generation_info := []
  recorded_audio := none
  recording_info := []
  storage_file_id := none
  storage_metadata := []
  stt_stage := "pending"
  transcribed_text := ""
  stt_confidence := 0
  stt_info := []
  llm_stage := "pending"
  llm_analysis := []
  accuracy_score := 0
  final_report := []
  cleanup_info := []
  error_message := none
  mock_response_audio := none

/-- Python `min(a, b)` on rationals. -/
def pymin (a b : ℚ) : ℚ := if b < a then b else a

/-- Python `max(a, b)` on rationals. -/
def pymax (a b : ℚ) : ℚ := if a < b then b else a

/-- `TestResult.calculate_overall_progress`: the base is the table value of
the current step itself; an uncompleted step adds its fractional share. -/
def calculate_overall_progress (r : TestResult) : ℚ :=
  let base_progress : ℕ := STEP_PROGRESS_MAPPING r.current_step
  if r.current_step ∈ r.completed_steps then (base_progress : ℚ)
  else
    let step_weight : ℚ := 100 / 7
    let step_contribution : ℚ := (r.step_progress / 100) * step_weight
    pymin 100 ((base_progress : ℚ) + step_contribution)

/-- `TestResult.update_step_status`: set the current step, clamp the
intra-step progress, recompute the overall progress, and merge any reported
info into the `<step>_info` attribute when it exists (`hasattr` dispatch). -/
def update_step_status (r : TestResult) (step : String) (progress : ℚ)
    (additional_info : Option (List (String × PyVal))) : TestResult :=
  let r := { r with current_step := step }
  let r := { r with step_progress := pymax 0 (pymin 100 progress) }
  let r := { r with overall_progress := calculate_overall_progress r }
  match additional_info with
  | none => r
  | some info =>
    if step = "script_validation" then
      { r with script_validation_info := dictUpdate r.script_validation_info info }
    else if step = "startup" then
      { r with startup_info := dictUpdate r.startup_info info }
    else if step = "tts_generation" then
      { r with tts_generation_info := dictUpdate r.tts_generation_info info }
    else if step = "recording" then
      { r with recording_info := dictUpdate r.recording_info info }
    else if step = "stt" then
      { r with stt_info := dictUpdate r.stt_info info }
    else if step = "cleanup" then
      { r with cleanup_info := dictUpdate r.cleanup_info info }
    else r

/-- `TestResult.complete_current_step`: unless idle, append the current step
to the completed list when absent, force the step progress to 100, and
recompute the overall progress. -/
def complete_current_step (r : TestResult) : TestResult :=
  if r.current_step ≠ "idle" then
    let r :=
      if r.current_step ∈ r.completed_steps then r
      else { r with completed_steps := r.completed_steps ++ [r.current_step] }
    let r := { r with step_progress := 100 }
    { r with overall_progress := calculate_overall_progress r }
  else r

/-- Python exception model: the kinds `run_full_test` distinguishes, plus a
catch-all for any other `Exception` subclass. -/
inductive Exc where
  | valueError (msg : String)
  | runtimeError (msg : String)
  | typeError (msg : String)
  | keyError (msg : String)
  | otherExc (msg : String)
deriving DecidableEq, Repr

/-- Python `f"{e}"`: the message carried by the exception. -/
def Exc.msg : Exc → String
  | .valueError m => m
  | .runtimeError m => m
  | .typeError m => m
  | .keyError m => m
  | .otherExc m => m

/-- External collaborators of the orchestrator, plus the ambient clock and
hash function; each call either returns a value or raises. -/
structure Env where
  tts_test_connection : Except Exc Bool
  stt_test_connection : Except Exc Bool
  llm_test_connection : Except Exc Bool
  generate_dialogue_audio : String → Except Exc AudioFile
  simulate_call : String → Except Exc AudioFile
  store_audio : String → List (String × PyVal) → Except Exc String
  transcribe_audio : String → Except Exc (String × ℚ)
  analyze_conversation : String → String → Except Exc (List (String × PyVal))
  script_hash : String → String
  now : ℤ
  nowIso : String

/-- Outcome of a mutation step: the state as mutated so far, and the raised
exception when one escaped (Python mutations survive a raise). -/
abbrev Outcome := TestResult × Option Exc

/-- Sequencing with exception propagation: run the continuation only when no
exception is pending. -/
def andThen (p : Outcome) (f : TestResult → Outcome) : Outcome :=
  match p with
  | (r, none) => f r
  | (r, some e) => (r, some e)

/-- The `except Exception as e: raise RuntimeError(f"{prefix}{e}") from e`
wrapper at the end of every stage executor. -/
def wrapStage (pre : String) (p : Outcome) : Outcome :=
  match p with
  | (r, none) => (r, none)
  | (r, some e) => (r, some (Exc.runtimeError (pre ++ e.msg)))

/-- Body of the `try` block of `_step1_preprocessing`. -/
def step1_body (env : Env) (script_content : String) (r : TestResult) :
    Outcome :=
  if pyStrip script_content = "" then
    (r, some (Exc.valueError "測試腳本不能為空"))
  else
    let r := update_step_status r "preprocessing" 20 none
    let dialogue_lines := parse_content script_content
    if dialogue_lines = [] then
      (r, some (Exc.valueError "腳本中沒有可識別的對話內容"))
    else
      let r := update_step_status r "preprocessing" 60 none
      let r := { r with parsed_dialogue_count := dialogue_lines.length }
      let r := { r with script_validation_info := [
        ("total_lines", PyVal.int ((pySplitLines (pyStrip script_content)).length : ℤ)),
        ("dialogue_lines", PyVal.int (dialogue_lines.length : ℤ)),
        ("customer_lines", PyVal.int
          ((dialogue_lines.filter (fun l => l.speaker == SpeakerRole.customer)).length : ℤ)),
        ("agent_lines", PyVal.int
          ((dialogue_lines.filter (fun l => l.speaker == SpeakerRole.agent)).length : ℤ)),
        ("script_hash", PyVal.str (env.script_hash script_content)),
        ("validated_at", PyVal.str env.nowIso)] }
      let r := update_step_status r "preprocessing" 100 none
      let r := complete_current_step r
      (r, none)

/-- Stage executor `_step1_preprocessing`. -/
def _step1_preprocessing (env : Env) (script_content : String)
    (result : TestResult) : Outcome :=
  let result := update_step_status result "preprocessing" 0 none
  wrapStage "測試對話腳本處理失敗: " (step1_body env script_content result)

/-- Python `d[k] = v` on a string-to-bool dictionary (`apis_verified`). -/
def setBoolKey (d : List (String × Bool)) (k : String) (v : Bool) :
    List (String × Bool) :=
  if d.any (fun p => p.1 == k) then
    d.map (fun p => if p.1 == k then (k, v) else p)
  else d ++ [(k, v)]

/-- Body of the `try` block of `_step2_startup`. -/
def step2_body (env : Env) (r : TestResult) : Outcome :=
  match env.tts_test_connection with
  | Except.error e => (r, some e)
  | Except.ok tts_status =>
    let r := { r with apis_verified := setBoolKey r.apis_verified "tts" tts_status }
    let r := update_step_status r "startup" 25 none
    if !tts_status then (r, some (Exc.runtimeError "TTS API 連線失敗"))
    else
      match env.stt_test_connection with
      | Except.error e => (r, some e)
      | Except.ok stt_status =>
        let r := { r with apis_verified := setBoolKey r.apis_verified "stt" stt_status }
        let r := update_step_status r "startup" 50 none
        if !stt_status then (r, some (Exc.runtimeError "STT API 連線失敗"))
        else
          match env.llm_test_connection with
          | Except.error e => (r, some e)
          | Except.ok llm_status =>
            let r := { r with apis_verified := setBoolKey r.apis_verified "llm" llm_status }
            let r := update_step_status r "startup" 75 none
            if !llm_status then (r, some (Exc.runtimeError "LLM API 連線失敗"))
            else
              let r := { r with startup_info := [
                ("apis_verified_at", PyVal.str env.nowIso),
                ("test_environment", PyVal.str "ready"),
                ("services_status", PyVal.dict [
                  ("tts_service", PyVal.str "connected"),
                  ("stt_service", PyVal.str "connected"),
                  ("llm_service", PyVal.str "connected"),
                  ("mock_services", PyVal.str "ready")])] }
              let r := update_step_status r "startup" 100 none
              let r := complete_current_step r
              (r, none)

/-- Stage executor `_step2_startup`. -/
def _step2_startup (env : Env) (result : TestResult) : Outcome :=
  let result := update_step_status result "startup" 0 none
  wrapStage "系統啟動失敗: " (step2_body env result)

/-- Body of the `try` block of `_step3_tts_conversion`. -/
def step3_body (env : Env) (script_content : String) (r : TestResult) :
    Outcome :=
  let r := update_step_status r "tts_conversion" 10 none
  let r := update_step_status r "tts_conversion" 20 none
  match env.generate_dialogue_audio script_content with
  | Except.error e => (r, some e)
  | Except.ok tts_audio =>
    let r := { r with tts_audio := some tts_audio }
    let r := { r with tts_generation_info := [
      ("duration", PyVal.num tts_audio.duration),
      ("file_size", PyVal.int (tts_audio.file_size : ℤ)),
      ("format", PyVal.str tts_audio.format),
      ("generated_at", PyVal.str env.nowIso),
      ("dialogue_count", PyVal.int (r.parsed_dialogue_count : ℤ))] }
    let r := update_step_status r "tts_conversion" 100 none
    let r := complete_current_step r
    (r, none)

/-- Stage executor `_step3_tts_conversion`. -/
def _step3_tts_conversion (env : Env) (script_content : String)
    (result : TestResult) : Outcome :=
  let result := update_step_status result "tts_conversion" 0 none
  wrapStage "客服系統處理失敗: " (step3_body env script_content result)

/-- Body of the `try` block of `_step4_recording`. -/
def step4_body (env : Env) (r : TestResult) : Outcome :=
  match r.tts_audio with
  | none => (r, some (Exc.runtimeError "TTS 音檔不存在，無法進行錄音模擬"))
  | some tts =>
    let r := update_step_status r "recording" 20 none
    match env.simulate_call tts.file_path with
    | Except.error e => (r, some e)
    | Except.ok recorded_audio =>
      let r := { r with recorded_audio := some recorded_audio }
      let r := { r with mock_response_audio := some recorded_audio }
      let r := { r with recording_info := [
        ("source_audio_duration", PyVal.num tts.duration),
        ("recorded_audio_duration", PyVal.num recorded_audio.duration),
        ("file_size", PyVal.int (recorded_audio.file_size : ℤ)),
        ("recording_quality", PyVal.str "high_fidelity"),
        ("recorded_at", PyVal.str env.nowIso)] }
      let r := update_step_status r "recording" 100 none
      let r := complete_current_step r
      (r, none)

/-- Stage executor `_step4_recording`. -/
def _step4_recording (env : Env) (result : TestResult) : Outcome :=
  let result := update_step_status result "recording" 0 none
  wrapStage "錄音系統處理失敗: " (step4_body env result)

/-- Body of the `try` block of `_step5_storage`. -/
def step5_body (env : Env) (r : TestResult) : Outcome :=
  match r.recorded_audio with
  | none => (r, some (Exc.runtimeError "錄音檔不存在，無法進行存放"))
  | some rec_audio =>
    let r := update_step_status r "storage" 20 none
    let metadata : List (String × PyVal) := [
      ("test_id", PyVal.str r.test_id),
      ("type", PyVal.str "recorded_call"),
      ("duration", PyVal.num rec_audio.duration),
      ("created_at", PyVal.str env.nowIso),
      ("original_script_hash",
        PyVal.str (dictGetStr r.script_validation_info "script_hash" "")),
      ("source_info", PyVal.dict [
        ("tts_duration", match r.tts_audio with
          | some tts => PyVal.num tts.duration
          | none => PyVal.int 0),
        ("dialogue_count", PyVal.int (r.parsed_dialogue_count : ℤ))])]
    let r := update_step_status r "storage" 50 none
    match env.store_audio rec_audio.file_path metadata with
    | Except.error e => (r, some e)
    | Except.ok file_id =>
      let r := { r with storage_file_id := some file_id }
      let r := { r with storage_metadata := [
        ("file_id", PyVal.str file_id),
        ("stored_at", PyVal.str env.nowIso),
        ("storage_path", PyVal.str rec_audio.file_path),
        ("metadata", PyVal.dict metadata)] }
      let r := update_step_status r "storage" 100 none
      let r := complete_current_step r
      (r, none)

/-- Stage executor `_step5_storage`. -/
def _step5_storage (env : Env) (result : TestResult) : Outcome :=
  let result := update_step_status result "storage" 0 none
  wrapStage "音檔存放系統處理失敗: " (step5_body env result)

/-- The fixed zero-score analysis record substituted when the transcript is
empty (`_step6_llm_analysis`, the `else` branch of the LLM phase). -/
def emptyTranscriptAnalysis : List (String × PyVal) := [
  ("accuracy_score", PyVal.num 0),
  ("summary", PyVal.str "轉錄文字為空，無法進行分析"),
  ("key_differences", PyVal.list [PyVal.str "無法獲取轉錄內容"]),
  ("suggestions", PyVal.list [PyVal.str "檢查音檔品質", PyVal.str "重新嘗試測試"]),
  ("reasoning", PyVal.str "STT 轉錄失敗或音檔無內容")]

/-- Body of the `try` block of `_step6_llm_analysis`. -/
def step6_body (env : Env) (r : TestResult) : Outcome :=
  match r.recorded_audio with
  | none => (r, some (Exc.runtimeError "錄音檔不存在，無法進行分析"))
  | some rec_audio =>
    let r := { r with stt_stage := "processing" }
    let r := update_step_status r "llm_analysis" 10 none
    match env.transcribe_audio rec_audio.file_path with
    | Except.error e => (r, some e)
    | Except.ok tc =>
      let transcribed_text := tc.1
      let confidence := tc.2
      let r := { r with transcribed_text := transcribed_text }
      let r := { r with stt_confidence := confidence }
      let r := { r with stt_stage := "completed" }
      let r := { r with stt_info := [
        ("transcribed_at", PyVal.str env.nowIso),
        ("confidence_score", PyVal.num confidence),
        ("text_length", PyVal.int (transcribed_text.length : ℤ)),
        ("processing_duration", PyVal.str "auto")] }
      let r := update_step_status r "llm_analysis" 50 none
      let r := { r with llm_stage := "processing" }
      let r := update_step_status r "llm_analysis" 60 none
      let after : Outcome :=
        if pyStrip transcribed_text ≠ "" then
          match env.analyze_conversation r.original_script transcribed_text with
          | Except.error e => (r, some e)
          | Except.ok analysis =>
            let r := { r with llm_analysis := analysis }
            ({ r with accuracy_score := dictGetRat analysis "accuracy_score" 0 }, none)
        else
          let r := { r with llm_analysis := emptyTranscriptAnalysis }
          ({ r with accuracy_score := 0 }, none)
      andThen after (fun r =>
        let r := { r with llm_stage := "completed" }
        let r := update_step_status r "llm_analysis" 100 none
        let r := complete_current_step r
        (r, none))

/-- Stage executor `_step6_llm_analysis`. -/
def _step6_llm_analysis (env : Env) (result : TestResult) : Outcome :=
  let result := update_step_status result "llm_analysis" 0 none
  wrapStage "LLM分析系統處理失敗: " (step6_body env result)

/-- Body of the `try` block of `_step7_completion`; `_cleanup_temp_files`
always returns 0 and `_save_test_record` only logs. -/
def step7_body (env : Env) (r : TestResult) : Outcome :=
  let total_duration : ℤ := env.now - r.timestamp
  let r := { r with final_report := [
    ("test_summary", PyVal.dict [
      ("test_id", PyVal.str r.test_id),
      ("total_duration_seconds", PyVal.int total_duration),
      ("accuracy_score", PyVal.num r.accuracy_score),
      ("status", PyVal.str "completed"),
      ("completed_at", PyVal.str env.nowIso)]),
    ("steps_completed", PyVal.int (r.completed_steps.length : ℤ)),
    ("file_info", PyVal.dict [
      ("tts_audio_path", match r.tts_audio with
        | some a => PyVal.str a.file_path
        | none => PyVal.pynone),
      ("recorded_audio_path", match r.recorded_audio with
        | some a => PyVal.str a.file_path
        | none => PyVal.pynone),
      ("storage_file_id", match r.storage_file_id with
        | some i => PyVal.str i
        | none => PyVal.pynone)]),
    ("analysis_results", PyVal.dict [
      ("original_script_length", PyVal.int (r.original_script.length : ℤ)),
      ("transcribed_text_length", PyVal.int (r.transcribed_text.length : ℤ)),
      ("dialogue_count", PyVal.int (r.parsed_dialogue_count : ℤ)),
      ("stt_confidence", PyVal.num r.stt_confidence),
      ("final_accuracy", PyVal.num r.accuracy_score)])] }
  let r := update_step_status r "completion" 40 none
  let r := { r with cleanup_info := [
    ("cleaned_files", PyVal.int 0),
    ("cleanup_at", PyVal.str env.nowIso),
    ("retention_policy", PyVal.str "keep_final_results")] }
  let r := update_step_status r "completion" 70 none
  let r := update_step_status r "completion" 100 none
  let r := complete_current_step r
  (r, none)

/-- Stage executor `_step7_completion`. -/
def _step7_completion (env : Env) (result : TestResult) : Outcome :=
  let result := update_step_status result "completion" 0 none
  wrapStage "系統結束處理失敗: " (step7_body env result)

/-- The ordered composition of the seven stage executors inside the `try`
block of `run_full_test`. -/
def runSteps (env : Env) (script_content : String) (r : TestResult) :
    Outcome :=
  andThen (_step1_preprocessing env script_content r) (fun r =>
  andThen (_step2_startup env r) (fun r =>
  andThen (_step3_tts_conversion env script_content r) (fun r =>
  andThen (_step4_recording env r) (fun r =>
  andThen (_step5_storage env r) (fun r =>
  andThen (_step6_llm_analysis env r) (fun r =>
  _step7_completion env r))))))

/-- The error rendering of the `except` clauses of `run_full_test`: the
message stored when the exception kind is recognized, `none` when not. -/
def catchMsg : Exc → Option String
  | .valueError m => some ("值錯誤: " ++ m)
  | .runtimeError m => some ("執行錯誤: " ++ m)
  | .typeError m => some ("類型或鍵錯誤: " ++ m)
  | .keyError m => some ("類型或鍵錯誤: " ++ m)
  | .otherExc _ => none

/-- The `except` clauses of `run_full_test`: a recognized exception is
absorbed into `status = failed` plus `error_message`; anything else escapes
with the mutations kept. -/
def absorb (body : Outcome) : Outcome :=
  match body with
  | (r, none) => (r, none)
  | (r, some e) =>
    match catchMsg e with
    | some msg =>
      ({ r with status := TestStatus.failed, error_message := some msg }, none)
    | none => (r, some e)

/-- The two assignments at the top of `run_full_test`, before its `try`. -/
def startRun (result : TestResult) : TestResult :=
  { result with status := TestStatus.running, current_step := "preprocessing" }

/-- `TestOrchestrator.run_full_test`: mark the record running, execute the
seven stages strictly in order, finalize to `completed`, and absorb any
recognized failure into `status = failed` plus `error_message`. -/
def run_full_test (env : Env) (result : TestResult) : Outcome :=
  absorb
    (if (startRun result).original_script = "" then
      (startRun result, some (Exc.valueError "測試結果物件中缺少原始腳本"))
    else
      andThen (runSteps env (startRun result).original_script (startRun result))
        (fun r =>
          ({ r with status := TestStatus.completed,
                    current_step := "completion",
                    overall_progress := 100 }, none)))

/-- Route `cleanup_old_tests` in `api/routes.py`: drop every record that is
not running and whose timestamp is older than `now - days`. -/
def cleanup_old_tests (now days : ℤ) (reg : List (String × TestResult)) :
    List (String × TestResult) :=
  let cutoff := now - days
  reg.filter (fun p =>
    !(decide (p.2.status ≠ TestStatus.running) && decide (p.2.timestamp < cutoff)))

/-- Whether a line of the script is recognized as a dialogue line: it has a
colon and the text before the first colon, trimmed and lowercased, is one of
the four speaker labels. -/
def recognizedLine (line : String) : Bool :=
  pyContains line ':' &&
    decide (pyLower (pyStrip (splitOnce line).1) ∈
      (["customer", "agent", "客戶", "客服"] : List String))

/-- A concrete environment in which every collaborator succeeds. -/
def envOK : Env where
  tts_test_connection := Except.ok true
  stt_test_connection := Except.ok true
  llm_test_connection := Except.ok true
  generate_dialogue_audio := fun _ => Except.ok ⟨"/tmp/tts.mp3", 5, 1000, "mp3"⟩
  simulate_call := fun _ => Except.ok ⟨"/tmp/rec.mp3", 5, 1000, "mp3"⟩
  store_audio := fun _ _ => Except.ok "file-1"
  transcribe_audio := fun _ => Except.ok ("hello hi there", 9 / 10)
  analyze_conversation := fun _ _ => Except.ok [("accuracy_score", PyVal.num 92)]
  script_hash := fun _ => "abcd1234"
  now := 100
  nowIso := "2026-01-01T00:00:00"

section Lemmas

/-- Projection lemma: entering the run does not change the script. -/
theorem update_step_status_original_script (r : TestResult) (s : String)
    (p : ℚ) (i : Option (List (String × PyVal))) :
    (update_step_status r s p i).original_script = r.original_script := by
  unfold update_step_status
  cases i with
  | none => rfl
  | some info => dsimp only; split_ifs <;> rfl

/-- Updating step status never touches the artifact fields. -/
theorem update_step_status_recorded_audio (r : TestResult) (s : String)
    (p : ℚ) (i : Option (List (String × PyVal))) :
    (update_step_status r s p i).recorded_audio = r.recorded_audio := by
  unfold update_step_status
  cases i with
  | none => rfl
  | some info => dsimp only; split_ifs <;> rfl

/-- Completing a step never changes which step is current. -/
theorem complete_current_step_current (r : TestResult) :
    (complete_current_step r).current_step = r.current_step := by
  unfold complete_current_step
  split_ifs <;> rfl

/-- Runs of `wrapStage` fail only with a `RuntimeError`. -/
def onlyRuntimeErr (p : Outcome) : Prop :=
  ∀ e, p.2 = some e → ∃ m, e = Exc.runtimeError m

theorem wrapStage_onlyRuntimeErr (pre : String) (p : Outcome) :
    onlyRuntimeErr (wrapStage pre p) := by
  rcases p with ⟨r, o⟩
  cases o with
  | none => intro e he; simp [wrapStage] at he
  | some e0 =>
    intro e he
    simp [wrapStage] at he
    exact ⟨pre ++ e0.msg, he.symm⟩

theorem andThen_onlyRuntimeErr (p : Outcome) (f : TestResult → Outcome)
    (hp : onlyRuntimeErr p) (hf : ∀ r, onlyRuntimeErr (f r)) :
    onlyRuntimeErr (andThen p f) := by
  rcases p with ⟨r, o⟩
  cases o with
  | none => exact hf r
  | some e => exact hp

theorem step1_onlyRuntimeErr (env : Env) (s : String) (r : TestResult) :
    onlyRuntimeErr (_step1_preprocessing env s r) :=
  wrapStage_onlyRuntimeErr _ _

theorem step2_onlyRuntimeErr (env : Env) (r : TestResult) :
    onlyRuntimeErr (_step2_startup env r) :=
  wrapStage_onlyRuntimeErr _ _

theorem step3_onlyRuntimeErr (env : Env) (s : String) (r : TestResult) :
    onlyRuntimeErr (_step3_tts_conversion env s r) :=
  wrapStage_onlyRuntimeErr _ _

theorem step4_onlyRuntimeErr (env : Env) (r : TestResult) :
    onlyRuntimeErr (_step4_recording env r) :=
  wrapStage_onlyRuntimeErr _ _

theorem step5_onlyRuntimeErr (env : Env) (r : TestResult) :
    onlyRuntimeErr (_step5_storage env r) :=
  wrapStage_onlyRuntimeErr _ _

theorem step6_onlyRuntimeErr (env : Env) (r : TestResult) :
    onlyRuntimeErr (_step6_llm_analysis env r) :=
  wrapStage_onlyRuntimeErr _ _

theorem step7_onlyRuntimeErr (env : Env) (r : TestResult) :
    onlyRuntimeErr (_step7_completion env r) :=
  wrapStage_onlyRuntimeErr _ _

/-- Every failure the seven-stage pipeline can surface is a stage-scoped
`RuntimeError`: each stage wraps whatever its body raised. -/
theorem runSteps_onlyRuntimeErr (env : Env) (s : String) (r : TestResult) :
    onlyRuntimeErr (runSteps env s r) := by
  unfold runSteps
  refine andThen_onlyRuntimeErr _ _ (step1_onlyRuntimeErr env s r) (fun r1 => ?_)
  refine andThen_onlyRuntimeErr _ _ (step2_onlyRuntimeErr env r1) (fun r2 => ?_)
  refine andThen_onlyRuntimeErr _ _ (step3_onlyRuntimeErr env s r2) (fun r3 => ?_)
  refine andThen_onlyRuntimeErr _ _ (step4_onlyRuntimeErr env r3) (fun r4 => ?_)
  refine andThen_onlyRuntimeErr _ _ (step5_onlyRuntimeErr env r4) (fun r5 => ?_)
  exact andThen_onlyRuntimeErr _ _ (step6_onlyRuntimeErr env r5)
    (fun r6 => step7_onlyRuntimeErr env r6)

/-- A string with a non-empty prefix is non-empty. -/
theorem append_ne_empty_left (s t : String) (h : s.length ≠ 0) :
    s ++ t ≠ "" := by
  intro hc
  apply h
  have hl := congrArg String.length hc
  rw [String.length_append] at hl
  have h0 : ("" : String).length = 0 := rfl
  rw [h0] at hl
  omega

end Lemmas

/-- Overall progress after completing the current step is exactly the table
value of that step, whatever the intra-step progress was. -/
theorem complete_overall_eq_table (r : TestResult) (h : r.current_step ≠ "idle") :
    (complete_current_step r).overall_progress =
      (STEP_PROGRESS_MAPPING r.current_step : ℚ) := by
  by_cases hm : r.current_step ∈ r.completed_steps <;>
    simp [complete_current_step, calculate_overall_progress, h, hm]

section ClaimC2

/-- Follows the specification's recomputation rule word for word: the table
value of the stage preceding `current_stage` (0 when `current_stage` is the
first stage). -/
def precedingStageTable : String → ℕ
  | "preprocessing" => 0
  | "startup" => 14
  | "tts_conversion" => 28
  | "recording" => 43
  | "storage" => 57
  | "llm_analysis" => 71
  | "completion" => 86
  | _ => 0

/-- Follows the specification's words for the not-yet-completed branch of the
overall-progress recomputation: preceding table value plus the fractional
share of the current stage, capped at 100. -/
def specClaimedProgress (r : TestResult) : ℚ :=
  pymin 100 ((precedingStageTable r.current_step : ℚ) +
    (r.step_progress / 100) * (100 / 7))

/-- A record at the very start of the first stage: status running, stage
`preprocessing`, no completed stages, zero intra-stage progress. -/
def c2rec : TestResult :=
  update_step_status
    { mkTestResult "t2" 0 "customer: hi" with status := TestStatus.running }
    "preprocessing" 0 none

/-- Claim C2 as stated is false: at the start of `preprocessing` the code
recomputes `overall_progress = 14` (the current stage's own table value plus
nothing), while the claim's formula (preceding table value, 0 for the first
stage) prescribes 0. -/
theorem C2_counterexample :
    c2rec.current_step ∉ c2rec.completed_steps ∧
    calculate_overall_progress c2rec = 14 ∧
    specClaimedProgress c2rec = 0 := by
  refine ⟨by decide, ?_, ?_⟩
  · norm_num [c2rec, calculate_overall_progress, update_step_status, pymin,
      pymax, mkTestResult, STEP_PROGRESS_MAPPING]
  · norm_num [c2rec, specClaimedProgress, precedingStageTable,
      update_step_status, pymin, pymax, mkTestResult, STEP_PROGRESS_MAPPING]

/-- C2 (amended): for every state whose `current_stage` is not completed,
the recomputed overall progress is the table value of `current_stage`
itself, plus `(stage_progress/100) * (100/7)`, capped at 100. -/
theorem C2_recompute_uses_current_stage_table (r : TestResult)
    (h : r.current_step ∉ r.completed_steps) :
    calculate_overall_progress r =
      pymin 100 ((STEP_PROGRESS_MAPPING r.current_step : ℚ) +
        (r.step_progress / 100) * (100 / 7)) := by
  unfold calculate_overall_progress
  rw [if_neg h]

/-- Witness for C2: the amended recomputation rule evaluated on a concrete
fresh record. -/
theorem C2_witness :
    (mkTestResult "w2" 0 "x").current_step ∉
      (mkTestResult "w2" 0 "x").completed_steps ∧
    calculate_overall_progress (mkTestResult "w2" 0 "x") =
      pymin 100 ((STEP_PROGRESS_MAPPING (mkTestResult "w2" 0 "x").current_step : ℚ) +
        ((mkTestResult "w2" 0 "x").step_progress / 100) * (100 / 7)) :=
  ⟨by decide, C2_recompute_uses_current_stage_table _ (by decide)⟩

end ClaimC2

section ClaimC3

/-- A running record that has just reported 100% intra-stage progress in
`preprocessing` (exactly what `_step1_preprocessing` does right before it
completes the stage). -/
def c3r1 : TestResult :=
  update_step_status
    { mkTestResult "t3" 0 "customer: hi" with status := TestStatus.running }
    "preprocessing" 100 none

/-- The same record immediately after `complete_current_step`. -/
def c3r2 : TestResult := complete_current_step c3r1

/-- Claim C3 is false on the code: in the state sequence every run produces,
`overall_progress` reaches `14 + 100/7 = 198/7 ≈ 28.3` when the first stage
reports 100% intra-stage progress, and then drops to `14` at the very next
operation, `complete_current_step` — the progress value decreases while the
run is `Running`. -/
theorem C3_progress_decreases_at_stage_completion :
    c3r1.status = TestStatus.running ∧
    c3r1.overall_progress = 198 / 7 ∧
    c3r2.overall_progress = 14 ∧
    c3r2.overall_progress < c3r1.overall_progress := by
  have e1 : c3r1.overall_progress = 198 / 7 := by
    norm_num [c3r1, calculate_overall_progress, update_step_status, pymin,
      pymax, mkTestResult, STEP_PROGRESS_MAPPING]
  have e2 : c3r2.overall_progress = 14 := by
    have h := complete_overall_eq_table c3r1 (by decide)
    rw [show c3r2 = complete_current_step c3r1 from rfl, h]
    norm_num [c3r1, update_step_status, mkTestResult, STEP_PROGRESS_MAPPING]
  refine ⟨by decide, e1, e2, ?_⟩
  rw [e1, e2]
  norm_num

end ClaimC3

section ClaimC4

/-- Claim C4's identification of the table with `round(100 * k / 7)` is
false at stage index 2: the table maps `startup` to 28, while
`round(200 / 7) = 29`. -/
theorem C4_counterexample :
    STEP_PROGRESS_MAPPING "startup" = 28 ∧
    round ((100 * 2 : ℚ) / 7) = 29 := by
  constructor
  · rfl
  · norm_num [round_eq]

/-- C4 (amended): at the instant a stage is marked completed the overall
progress equals the fixed table value for that stage, and the table values
for the seven stages in order are 14, 28, 43, 57, 71, 86, 100 (which differ
from `round(100 * k / 7)` at k = 2). -/
theorem C4_completion_hits_table_value (r : TestResult)
    (h : r.current_step ∈ stageNames) :
    (complete_current_step r).overall_progress =
      (STEP_PROGRESS_MAPPING r.current_step : ℚ) ∧
    stageNames.map STEP_PROGRESS_MAPPING = [14, 28, 43, 57, 71, 86, 100] := by
  constructor
  · apply complete_overall_eq_table
    intro heq
    rw [heq] at h
    exact absurd h (by decide)
  · rfl

/-- Witness for C4: a record whose current stage is `startup`. -/
theorem C4_witness :
    (update_step_status (mkTestResult "w4" 0 "x") "startup" 50 none).current_step
        ∈ stageNames ∧
    (complete_current_step
        (update_step_status (mkTestResult "w4" 0 "x") "startup" 50 none)).overall_progress =
      (STEP_PROGRESS_MAPPING
        (update_step_status (mkTestResult "w4" 0 "x") "startup" 50 none).current_step : ℚ) :=
  ⟨by decide,
    (C4_completion_hits_table_value _ (by decide)).1⟩

end ClaimC4

section ClaimC7

/-- C7: on a record without duplicated completion entries, completing the
current non-idle stage twice is the same as completing it once, the stage
ends up exactly once in `completed_steps`, and each call forces
`stage_progress = 100` and recomputes `overall_progress`. -/
theorem C7_complete_stage_idempotent (r : TestResult)
    (h1 : r.current_step ≠ "idle")
    (h2 : r.completed_steps.count r.current_step ≤ 1) :
    complete_current_step (complete_current_step r) = complete_current_step r ∧
    (complete_current_step r).completed_steps.count r.current_step = 1 ∧
    (complete_current_step r).step_progress = 100 ∧
    (complete_current_step r).overall_progress =
      calculate_overall_progress (complete_current_step r) := by
  by_cases hm : r.current_step ∈ r.completed_steps
  · have hpos : 0 < r.completed_steps.count r.current_step :=
      List.count_pos_iff.mpr hm
    have hc : complete_current_step r =
        { r with step_progress := 100,
                 overall_progress := (STEP_PROGRESS_MAPPING r.current_step : ℚ) } := by
      simp [complete_current_step, calculate_overall_progress, h1, hm]
    refine ⟨?_, ?_, ?_, ?_⟩
    · rw [hc]
      simp [complete_current_step, calculate_overall_progress, h1, hm]
    · rw [hc]
      dsimp only
      omega
    · rw [hc]
    · rw [hc]
      simp [calculate_overall_progress, hm]
  · have hc : complete_current_step r =
        { r with completed_steps := r.completed_steps ++ [r.current_step],
                 step_progress := 100,
                 overall_progress := (STEP_PROGRESS_MAPPING r.current_step : ℚ) } := by
      simp [complete_current_step, calculate_overall_progress, h1, hm]
    refine ⟨?_, ?_, ?_, ?_⟩
    · rw [hc]
      simp [complete_current_step, calculate_overall_progress, h1, hm]
    · rw [hc]
      dsimp only
      rw [List.count_append]
      simp [List.count_eq_zero_of_not_mem hm]
    · rw [hc]
    · rw [hc]
      simp [calculate_overall_progress, hm]

/-- Witness for C7: a record whose current stage is `preprocessing` with an
empty completed list. -/
theorem C7_witness :
    (update_step_status (mkTestResult "w7" 0 "x") "preprocessing" 30 none).current_step
        ≠ "idle" ∧
    (complete_current_step
        (update_step_status (mkTestResult "w7" 0 "x") "preprocessing" 30 none)).completed_steps.count
      (update_step_status (mkTestResult "w7" 0 "x") "preprocessing" 30 none).current_step = 1 :=
  ⟨by decide,
    (C7_complete_stage_idempotent _ (by decide) (by decide)).2.1⟩

end ClaimC7

section ClaimC9

/-- C9 (amended): age-based cleanup keeps a registry entry precisely when it
is running or not older than the cutoff; it deletes exactly the non-running
entries older than the cutoff. In particular a running run is never removed
regardless of age, but an old `pending` run — which is not terminal — is
removed as well. -/
theorem C9_cleanup_deletes_nonrunning_old (now days : ℤ)
    (reg : List (String × TestResult)) (p : String × TestResult) :
    p ∈ cleanup_old_tests now days reg ↔
      p ∈ reg ∧
        (p.2.status = TestStatus.running ∨ now - days ≤ p.2.timestamp) := by
  unfold cleanup_old_tests
  rw [List.mem_filter]
  simp [not_and_or, not_lt]

/-- An old run still in `pending` (created but never started) is not
terminal, yet cleanup removes it: the claim's "only terminal runs" is false
on the code. -/
def c9old : TestResult := mkTestResult "t9" 0 ""

/-- Claim C9's "if and only if terminal" direction fails: a `pending` run
older than the cutoff is deleted although its status is neither `completed`
nor `failed`. -/
theorem C9_counterexample :
    c9old.status ≠ TestStatus.completed ∧
    c9old.status ≠ TestStatus.failed ∧
    cleanup_old_tests 10 7 [("t9", c9old)] = [] := by
  refine ⟨by decide, by decide, ?_⟩
  rfl

end ClaimC9

section ClaimC10

/-- A line contributes a parsed dialogue line exactly when the claim's
recognition predicate holds: it contains a colon and its trimmed, lowercased
speaker label is one of the four accepted ones. -/
theorem parseLine_isSome (line : String) :
    (parseLine line).isSome = recognizedLine line := by
  unfold parseLine recognizedLine
  by_cases hc : pyContains line ':'
  · simp only [hc, if_true, Bool.true_and]
    by_cases h1 : pyLower (pyStrip (splitOnce line).1) = "客戶" ∨
        pyLower (pyStrip (splitOnce line).1) = "customer"
    · rw [if_pos h1]
      rcases h1 with h | h <;> simp [h]
    · rw [if_neg h1]
      by_cases h2 : pyLower (pyStrip (splitOnce line).1) = "客服" ∨
          pyLower (pyStrip (splitOnce line).1) = "agent"
      · rw [if_pos h2]
        rcases h2 with h | h <;> simp [h]
      · rw [if_neg h2]
        push_neg at h1 h2
        simp [h1.1, h1.2, h2.1, h2.2]
  · simp [hc]

/-- Length of a `filterMap` as a count of the inputs it keeps. -/
theorem length_filterMap_eq_countP {α β : Type} (f : α → Option β)
    (l : List α) :
    (l.filterMap f).length = l.countP (fun a => (f a).isSome) := by
  induction l with
  | nil => rfl
  | cons a t ih =>
    cases h : f a <;>
      simp [List.filterMap_cons, h, List.countP_cons, ih]

/-- The number of parsed dialogue lines is the number of recognized lines of
the stripped script. -/
theorem parse_content_length (content : String) :
    (parse_content content).length =
      (pySplitLines (pyStrip content)).countP recognizedLine := by
  unfold parse_content
  rw [length_filterMap_eq_countP]
  exact List.countP_congr (fun a _ => by rw [parseLine_isSome a])

/-- The preprocessing executor on a whitespace-only script: precise failing
outcome. -/
theorem step1_blank (env : Env) (s : String) (r : TestResult)
    (h : pyStrip s = "") :
    _step1_preprocessing env s r =
      (update_step_status r "preprocessing" 0 none,
        some (Exc.runtimeError "測試對話腳本處理失敗: 測試腳本不能為空")) := by
  unfold _step1_preprocessing step1_body
  rw [h]
  rfl

/-- The preprocessing executor on a script with no recognizable dialogue:
precise failing outcome. -/
theorem step1_noparse (env : Env) (s : String) (r : TestResult)
    (h1 : ¬ pyStrip s = "") (h2 : parse_content s = []) :
    _step1_preprocessing env s r =
      (update_step_status (update_step_status r "preprocessing" 0 none)
          "preprocessing" 20 none,
        some (Exc.runtimeError "測試對話腳本處理失敗: 腳本中沒有可識別的對話內容")) := by
  unfold _step1_preprocessing step1_body
  simp only [if_neg h1, h2]
  rfl

/-- Updating step status does not touch the parsed dialogue count. -/
theorem update_step_status_parsed (r : TestResult) (s : String) (p : ℚ)
    (i : Option (List (String × PyVal))) :
    (update_step_status r s p i).parsed_dialogue_count =
      r.parsed_dialogue_count := by
  unfold update_step_status
  cases i with
  | none => rfl
  | some info => dsimp only; split_ifs <;> rfl

/-- Completing a step does not touch the parsed dialogue count. -/
theorem complete_current_step_parsed (r : TestResult) :
    (complete_current_step r).parsed_dialogue_count =
      r.parsed_dialogue_count := by
  unfold complete_current_step
  split_ifs <;> rfl

/-- A successful preprocessing stage records exactly the number of parsed
dialogue lines. -/
theorem step1_ok (env : Env) (s : String) (r : TestResult)
    (h1 : ¬ pyStrip s = "") (h2 : ¬ parse_content s = []) :
    (_step1_preprocessing env s r).2 = none ∧
    (_step1_preprocessing env s r).1.parsed_dialogue_count =
      (parse_content s).length := by
  simp only [_step1_preprocessing, step1_body, if_neg h1, if_neg h2]
  constructor
  · simp [wrapStage]
  · simp [wrapStage, complete_current_step_parsed, update_step_status_parsed]

/-- C10: a script line is recognized as dialogue exactly when it has a colon
and its trimmed, lowercased prefix is one of customer / agent / 客戶 / 客服;
other lines are skipped; and a successful preprocessing stage sets
`parsed_dialogue_count` to exactly the number of recognized lines. -/
theorem C10_parse_recognizes_labelled_lines (content line script : String)
    (env : Env) (r : TestResult) :
    (parseLine line).isSome = recognizedLine line ∧
    (parse_content content).length =
      (pySplitLines (pyStrip content)).countP recognizedLine ∧
    ((_step1_preprocessing env script r).2 = none →
      (_step1_preprocessing env script r).1.parsed_dialogue_count =
        (pySplitLines (pyStrip script)).countP recognizedLine) := by
  refine ⟨parseLine_isSome line, parse_content_length content, ?_⟩
  intro hok
  by_cases h1 : pyStrip script = ""
  · rw [step1_blank env script r h1] at hok
    simp at hok
  · by_cases h2 : parse_content script = []
    · rw [step1_noparse env script r h1 h2] at hok
      simp at hok
    · rw [(step1_ok env script r h1 h2).2, parse_content_length script]

/-- Witness for C10: the successful stage hypothesis discharged on the
two-line sample script. -/
theorem C10_witness :
    (_step1_preprocessing envOK "customer: hi" (mkTestResult "w10" 0 "customer: hi")).2 = none ∧
    (_step1_preprocessing envOK "customer: hi" (mkTestResult "w10" 0 "customer: hi")).1.parsed_dialogue_count =
      (pySplitLines (pyStrip "customer: hi")).countP recognizedLine :=
  ⟨(step1_ok envOK "customer: hi" (mkTestResult "w10" 0 "customer: hi")
      (by decide) (by decide)).1,
    (C10_parse_recognizes_labelled_lines "x" "x" "customer: hi" envOK
        (mkTestResult "w10" 0 "customer: hi")).2.2
      ((step1_ok envOK "customer: hi" (mkTestResult "w10" 0 "customer: hi")
        (by decide) (by decide)).1)⟩

end ClaimC10

section ClaimC1

/-- Projection: starting a run leaves the script unchanged. -/
theorem startRun_original_script (r : TestResult) :
    (startRun r).original_script = r.original_script := rfl

/-- Every message the catch clauses store is non-empty. -/
theorem catchMsg_ne_empty (e : Exc) (m : String) (h : catchMsg e = some m) :
    m ≠ "" := by
  cases e <;> simp [catchMsg] at h <;>
    (rw [← h]; exact append_ne_empty_left _ _ (by decide))

/-- C1: the orchestrator is the error boundary of a run.  Whatever the
collaborators do, `run_full_test` returns without an escaping exception, the
record is never left `Running` (the seven executors are sequenced strictly in
order by `runSteps`, and `andThen` stops at the first stage-scoped failure),
and a failed run carries the failure's non-empty message in
`error_message`. -/
theorem C1_run_absorbs_all_failures (env : Env) (r : TestResult) :
    (run_full_test env r).2 = none ∧
    (run_full_test env r).1.status ≠ TestStatus.running ∧
    ((run_full_test env r).1.status = TestStatus.completed ∨
      ((run_full_test env r).1.status = TestStatus.failed ∧
        ∃ m, (run_full_test env r).1.error_message = some m ∧ m ≠ "")) := by
  unfold run_full_test
  by_cases h : (startRun r).original_script = ""
  · rw [if_pos h]
    exact ⟨rfl, show TestStatus.failed ≠ TestStatus.running by decide,
      Or.inr ⟨rfl, _, rfl, by decide⟩⟩
  · rw [if_neg h]
    rcases hrs : runSteps env (startRun r).original_script (startRun r) with ⟨r2, o⟩
    cases o with
    | none =>
      exact ⟨rfl, show TestStatus.completed ≠ TestStatus.running by decide,
        Or.inl rfl⟩
    | some e =>
      obtain ⟨m, rfl⟩ := runSteps_onlyRuntimeErr env _ _ e (by rw [hrs])
      exact ⟨rfl, show TestStatus.failed ≠ TestStatus.running by decide,
        Or.inr ⟨rfl, "執行錯誤: " ++ m, rfl,
          append_ne_empty_left _ _ (by decide)⟩⟩

end ClaimC1

section ClaimC5

/-- C5: a run on an empty or whitespace-only script fails at
`preprocessing`: terminal status `failed`, the stage pinned at
`preprocessing`, a non-empty error message, and every artifact field exactly
as it was on the input record (untouched defaults for a fresh record). -/
theorem C5_blank_script_fails_at_preprocessing (env : Env) (r : TestResult)
    (h : pyStrip r.original_script = "") :
    (run_full_test env r).2 = none ∧
    (run_full_test env r).1.status = TestStatus.failed ∧
    (run_full_test env r).1.current_step = "preprocessing" ∧
    (∃ m, (run_full_test env r).1.error_message = some m ∧ m ≠ "") ∧
    (run_full_test env r).1.tts_audio = r.tts_audio ∧
    (run_full_test env r).1.recorded_audio = r.recorded_audio ∧
    (run_full_test env r).1.storage_file_id = r.storage_file_id ∧
    (run_full_test env r).1.transcribed_text = r.transcribed_text ∧
    (run_full_test env r).1.llm_analysis = r.llm_analysis ∧
    (run_full_test env r).1.final_report = r.final_report := by
  unfold run_full_test
  by_cases h0 : (startRun r).original_script = ""
  · rw [if_pos h0]
    exact ⟨rfl, rfl, rfl, ⟨_, rfl, by decide⟩, rfl, rfl, rfl, rfl, rfl, rfl⟩
  · rw [if_neg h0]
    unfold runSteps
    rw [step1_blank env _ _ (show pyStrip (startRun r).original_script = "" from h)]
    exact ⟨rfl, rfl, rfl, ⟨_, rfl, by decide⟩, rfl, rfl, rfl, rfl, rfl, rfl⟩

/-- Witness for C5: a whitespace-only script under the all-success
environment. -/
theorem C5_witness :
    pyStrip (mkTestResult "w5" 0 "  ").original_script = "" ∧
    (run_full_test envOK (mkTestResult "w5" 0 "  ")).1.status = TestStatus.failed ∧
    (run_full_test envOK (mkTestResult "w5" 0 "  ")).1.current_step = "preprocessing" :=
  ⟨by decide,
    (C5_blank_script_fails_at_preprocessing envOK (mkTestResult "w5" 0 "  ")
      (by decide)).2.1,
    (C5_blank_script_fails_at_preprocessing envOK (mkTestResult "w5" 0 "  ")
      (by decide)).2.2.1⟩

end ClaimC5

section ClaimC6

/-- Updating step status never touches the stored analysis record. -/
theorem update_step_status_llm_analysis (r : TestResult) (s : String) (p : ℚ)
    (i : Option (List (String × PyVal))) :
    (update_step_status r s p i).llm_analysis = r.llm_analysis := by
  unfold update_step_status
  cases i with
  | none => rfl
  | some info => dsimp only; split_ifs <;> rfl

/-- Completing a step never touches the stored analysis record. -/
theorem complete_current_step_llm_analysis (r : TestResult) :
    (complete_current_step r).llm_analysis = r.llm_analysis := by
  unfold complete_current_step
  split_ifs <;> rfl

/-- Updating step status never touches the accuracy score. -/
theorem update_step_status_accuracy (r : TestResult) (s : String) (p : ℚ)
    (i : Option (List (String × PyVal))) :
    (update_step_status r s p i).accuracy_score = r.accuracy_score := by
  unfold update_step_status
  cases i with
  | none => rfl
  | some info => dsimp only; split_ifs <;> rfl

/-- Completing a step never touches the accuracy score. -/
theorem complete_current_step_accuracy (r : TestResult) :
    (complete_current_step r).accuracy_score = r.accuracy_score := by
  unfold complete_current_step
  split_ifs <;> rfl

/-- C6: when the transcription collaborator returns empty or whitespace-only
text, the analysis stage's outcome does not depend on the analysis
collaborator at all, the stage stores the fixed zero-score record with its
fixed reasoning string, sets the accuracy to 0, and does not fail. -/
theorem C6_empty_transcript_skips_analysis (env : Env)
    (f g : String → String → Except Exc (List (String × PyVal)))
    (r : TestResult) (a : AudioFile) (t : String) (c : ℚ)
    (hrec : r.recorded_audio = some a)
    (ht : env.transcribe_audio a.file_path = Except.ok (t, c))
    (htr : pyStrip t = "") :
    _step6_llm_analysis { env with analyze_conversation := f } r =
      _step6_llm_analysis { env with analyze_conversation := g } r ∧
    (_step6_llm_analysis env r).2 = none ∧
    (_step6_llm_analysis env r).1.llm_analysis = emptyTranscriptAnalysis ∧
    (_step6_llm_analysis env r).1.accuracy_score = 0 := by
  refine ⟨?_, ?_, ?_, ?_⟩
  · simp only [_step6_llm_analysis, step6_body,
      update_step_status_recorded_audio, hrec, ht, htr, ne_eq,
      not_true_eq_false, if_false]
  · simp only [_step6_llm_analysis, step6_body,
      update_step_status_recorded_audio, hrec, ht, htr, ne_eq,
      not_true_eq_false, if_false, andThen, wrapStage]
  · simp only [_step6_llm_analysis, step6_body,
      update_step_status_recorded_audio, hrec, ht, htr, ne_eq,
      not_true_eq_false, if_false, andThen, wrapStage,
      complete_current_step_llm_analysis, update_step_status_llm_analysis]
  · simp only [_step6_llm_analysis, step6_body,
      update_step_status_recorded_audio, hrec, ht, htr, ne_eq,
      not_true_eq_false, if_false, andThen, wrapStage,
      complete_current_step_accuracy, update_step_status_accuracy]

/-- The environment whose transcription collaborator returns whitespace. -/
def envW6 : Env :=
  { envOK with transcribe_audio := fun _ => Except.ok ("  ", 1 / 2) }

/-- The recorded artifact used by the C6 witness. -/
def audioW6 : AudioFile := ⟨"/tmp/rec.mp3", 5, 1000, "mp3"⟩

/-- A record that has already passed the recording stage. -/
def recW6 : TestResult :=
  { mkTestResult "w6" 0 "customer: hi" with recorded_audio := some audioW6 }

/-- Witness for C6: the hypotheses discharged on a concrete record and
environment. -/
theorem C6_witness :
    recW6.recorded_audio = some audioW6 ∧
    envW6.transcribe_audio audioW6.file_path = Except.ok ("  ", 1 / 2) ∧
    pyStrip "  " = "" ∧
    (_step6_llm_analysis envW6 recW6).1.llm_analysis = emptyTranscriptAnalysis :=
  ⟨rfl, rfl, by decide,
    (C6_empty_transcript_skips_analysis envW6
      (fun _ _ => Except.ok []) (fun _ _ => Except.ok []) recW6 audioW6
      "  " (1 / 2) rfl rfl (by decide)).2.2.1⟩

end ClaimC6

section ClaimC8

/-- Replacing the value at one key keeps every key present. -/
theorem hasKey_map_replace (d : List (String × PyVal)) (k2 : String)
    (v : PyVal) (k : String) (h : hasKey d k = true) :
    hasKey (d.map (fun p => if p.1 == k2 then (k2, v) else p)) k = true := by
  unfold hasKey at h ⊢
  induction d with
  | nil => simp at h
  | cons p t ih =>
    simp only [List.map_cons, List.any_cons, Bool.or_eq_true] at h ⊢
    rcases h with h | h
    · left
      by_cases hp : (p.1 == k2) = true
      · have hpk : p.1 = k2 := by simpa using hp
        have hk : p.1 = k := by simpa using h
        have hkk : k2 = k := by rw [← hpk]; exact hk
        simp [hp, hkk, hk]
      · rw [if_neg hp]
        exact h
    · right
      exact ih h

/-- Python `d[k] = v` keeps every existing key. -/
theorem hasKey_setKey (d : List (String × PyVal)) (k2 : String) (v : PyVal)
    (k : String) (h : hasKey d k = true) :
    hasKey (setKey d k2 v) k = true := by
  unfold setKey
  split_ifs with hc
  · exact hasKey_map_replace d k2 v k h
  · unfold hasKey at h ⊢
    simp only [List.any_append, Bool.or_eq_true]
    exact Or.inl h

/-- Python `d.update(m)` keeps every existing key. -/
theorem hasKey_dictUpdate (m d : List (String × PyVal)) (k : String)
    (h : hasKey d k = true) : hasKey (dictUpdate d m) k = true := by
  induction m generalizing d with
  | nil => exact h
  | cons kv t ih => exact ih _ (hasKey_setKey d kv.1 kv.2 k h)

/-- C8 (amended): the merge path of `update_step_status` never deletes an
existing key of the stage's info mapping — but the stage executors
themselves assign fresh info mappings wholesale (see the counterexample), so
only the merge path is append-only. -/
theorem C8_merge_never_deletes_keys (r : TestResult) (prog : ℚ)
    (info : List (String × PyVal)) (k : String)
    (h : hasKey r.startup_info k = true) :
    hasKey ((update_step_status r "startup" prog (some info)).startup_info) k
      = true := by
  have heq : (update_step_status r "startup" prog (some info)).startup_info =
      dictUpdate r.startup_info info := rfl
  rw [heq]
  exact hasKey_dictUpdate info r.startup_info k h

/-- A record whose startup info mapping already holds a key `x`. -/
def c8rec : TestResult :=
  { mkTestResult "t8" 0 "customer: hi" with
      startup_info := [("x", PyVal.int 1)] }

/-- Claim C8's "no executor wholesale-replaces an info mapping" is false: a
successful `_step2_startup` run replaces `startup_info` with a fresh
mapping, losing the pre-existing key `x`. -/
theorem C8_counterexample :
    hasKey c8rec.startup_info "x" = true ∧
    (_step2_startup envOK c8rec).2 = none ∧
    hasKey (_step2_startup envOK c8rec).1.startup_info "x" = false := by
  refine ⟨by decide, rfl, rfl⟩

/-- Witness for C8: merging new info into a startup mapping that already
holds `x` keeps `x`. -/
theorem C8_witness :
    hasKey c8rec.startup_info "x" = true ∧
    hasKey ((update_step_status c8rec "startup" 50
        (some [("y", PyVal.int 2)])).startup_info) "x" = true :=
  ⟨by decide,
    C8_merge_never_deletes_keys c8rec 50 [("y", PyVal.int 2)] "x" (by decide)⟩

end ClaimC8



end CSTest
